import Mathlib

/-!
Shallow embedding of `src/dashboard/dashboard.py` (class `ProxyDashboard`),
the control/relay core of the proxy.py dashboard plugin.

The per-connection mutable state (`__init__`, lines 37-43) is the `Session`
record.  Each protocol handler is embedded as a pure function from the
session state (plus its inputs) to the new session state, a trace of the
observable side effects it performed in order (event-bus calls, thread
operations, frames queued to the client, log lines), and the Python
exception, if any, that escapes the handler.  A handler that raises leaves
the state as it was at the raise point, exactly as the Python object would.

The static relay worker loop (`relay_events`, lines 155-173) is embedded as
a fuel-indexed recursion over a schedule of channel outcomes and stop-flag
readings, one per loop iteration.
-/

namespace Dashboard

/-- Per-connection session state: the five instance attributes set in
`ProxyDashboard.__init__`.  Handles (thread, shutdown event, channel,
subscription id) are modelled as opaque tokens. -/
structure Session where
  inspection_enabled : Bool
  relay_thread : Option Nat
  relay_shutdown : Option Nat
  relay_channel : Option Nat
  relay_sub_id : Option String
deriving DecidableEq, Repr

/-- The state `__init__` leaves behind: inspection disabled, all handles None. -/
def session_init : Session :=
  { inspection_enabled := false
    relay_thread := none
    relay_shutdown := none
    relay_channel := none
    relay_sub_id := none }

/-- The externally supplied flags object; only `--enable-events` matters here. -/
structure Flags where
  enable_events : Bool
deriving DecidableEq, Repr

/-- Fresh resources consumed by the enable branch: the new `threading.Event`,
the new manager queue, the new `threading.Thread`, and the `uuid4().hex`
subscription identifier.  Freshness is modelled by passing them in. -/
structure Fresh where
  eid : Nat
  cid : Nat
  tid : Nat
  subId : String
deriving DecidableEq, Repr

/-- Observable side effects of the handlers, in program order. -/
inductive Action where
  | setEnabled (b : Bool)
  | newShutdownEvent (eid : Nat)
  | newChannel (cid : Nat)
  | startThread (tid : Nat)
  | newSubId (subId : String)
  | subscribe (subId : String) (cid : Nat)
  | unsubscribe (subId : String)
  | setShutdownSignal (eid : Nat)
  | joinThread (tid : Nat)
  | queueReply (msg : List (String × String))
  | logError
  | logInfo
deriving DecidableEq, Repr

/-- Python exceptions that can escape the embedded handlers. -/
inductive PyError where
  | assertionError
  | keyError (k : String)
  | jsonDecodeError
deriving DecidableEq, Repr

/-- An incoming websocket frame payload, classified by how
`assert frame.data; json.loads(frame.data)` behaves on it:
empty/falsy data, bytes that are not decodable text (UnicodeDecodeError),
decodable text that is not valid JSON (json.JSONDecodeError), or a decoded
JSON object with string fields. -/
inductive Payload where
  | empty
  | notUtf8
  | notJson
  | json (fields : List (String × String))
deriving DecidableEq, Repr

/-- Python dict lookup `d[k]` on an association list, returning `none` where
Python raises KeyError. -/
def dictGet? (d : List (String × String)) (k : String) : Option String :=
  (d.find? (fun p => p.1 = k)).map (fun p => p.2)

/-- Result type of a handler: final session state, trace of effects, and the
exception escaping the handler, if any. -/
abbrev HandlerResult := Session × List Action × Option PyError

/-- Embedding of `ProxyDashboard.shutdown_relay` (lines 132-147): early
return when `inspection_enabled` is false; otherwise assert the shutdown
event, thread and subscription id are present, then unsubscribe, set the
stop signal, join the thread, and clear the four relay handle fields.
Note it never writes `inspection_enabled`. -/
def shutdown_relay (s : Session) : HandlerResult :=
  if !s.inspection_enabled then (s, [], none)
  else
    match s.relay_shutdown with
    | none => (s, [], some .assertionError)
    | some eid =>
      match s.relay_thread with
      | none => (s, [], some .assertionError)
      | some tid =>
        match s.relay_sub_id with
        | none => (s, [], some .assertionError)
        | some subId =>
          ({ s with relay_thread := none
                    relay_shutdown := none
                    relay_channel := none
                    relay_sub_id := none },
           [.unsubscribe subId, .setShutdownSignal eid, .joinThread tid],
           none)

/-- Embedding of `ProxyDashboard.on_websocket_close` (lines 128-130):
log, then `shutdown_relay`. -/
def on_websocket_close (s : Session) : HandlerResult :=
  match shutdown_relay s with
  | (s1, tr, e) => (s1, .logInfo :: tr, e)

/-- The `ping` branch (lines 89-90): reply pong.  `message['id']` raises
KeyError when absent, before anything is queued. -/
def ping_branch (s : Session) (msg : List (String × String)) : HandlerResult :=
  match dictGet? msg "id" with
  | none => (s, [], some (.keyError "id"))
  | some i => (s, [.queueReply [("id", i), ("response", "pong")]], none)

/-- The `enable_inspection` branch (lines 91-117).  Without the capability
flag: reply "not enabled" and change nothing.  With it: set
`inspection_enabled`, create the shutdown event and channel, start the
relay thread, allocate the subscription id, subscribe, then reply.  The
reply's `message['id']` lookup happens after all the mutations. -/
def enable_branch (fl : Flags) (fr : Fresh) (s : Session)
    (msg : List (String × String)) : HandlerResult :=
  if !fl.enable_events then
    match dictGet? msg "id" with
    | none => (s, [], some (.keyError "id"))
    | some i => (s, [.queueReply [("id", i), ("response", "not enabled")]], none)
  else
    let s1 : Session :=
      { s with inspection_enabled := true
               relay_shutdown := some fr.eid
               relay_channel := some fr.cid
               relay_thread := some fr.tid
               relay_sub_id := some fr.subId }
    let tr : List Action :=
      [.setEnabled true, .newShutdownEvent fr.eid, .newChannel fr.cid,
       .startThread fr.tid, .newSubId fr.subId, .subscribe fr.subId fr.cid]
    match dictGet? msg "id" with
    | none => (s1, tr, some (.keyError "id"))
    | some i =>
      (s1, tr ++ [.queueReply [("id", i), ("response", "inspection_enabled")]], none)

/-- The `disable_inspection` branch (lines 118-122): `shutdown_relay`, then
`inspection_enabled = False`, then reply.  If `shutdown_relay` raises, the
rest does not run. -/
def disable_branch (s : Session) (msg : List (String × String)) : HandlerResult :=
  match shutdown_relay s with
  | (s1, tr, some e) => (s1, tr, some e)
  | (s1, tr, none) =>
    let s2 : Session := { s1 with inspection_enabled := false }
    match dictGet? msg "id" with
    | none => (s2, tr ++ [.setEnabled false], some (.keyError "id"))
    | some i =>
      (s2, tr ++ [.setEnabled false,
                  .queueReply [("id", i), ("response", "inspection_disabled")]], none)

/-- The unknown-method branch (lines 123-126): log twice, reply
"not_implemented". -/
def other_branch (s : Session) (msg : List (String × String)) : HandlerResult :=
  match dictGet? msg "id" with
  | none => (s, [.logInfo, .logInfo], some (.keyError "id"))
  | some i =>
    (s, [.logInfo, .logInfo,
         .queueReply [("id", i), ("response", "not_implemented")]], none)

/-- Dispatch on `message['method']` (KeyError when absent) across the
elif chain of `on_websocket_message`. -/
def handle_decoded (fl : Flags) (fr : Fresh) (s : Session)
    (msg : List (String × String)) : HandlerResult :=
  match dictGet? msg "method" with
  | none => (s, [], some (.keyError "method"))
  | some m =>
    if m = "ping" then ping_branch s msg
    else if m = "enable_inspection" then enable_branch fl fr s msg
    else if m = "disable_inspection" then disable_branch s msg
    else other_branch s msg

/-- Embedding of `ProxyDashboard.on_websocket_message` (lines 80-126).  The
try block catches only UnicodeDecodeError: an empty payload fails the
assert (AssertionError escapes), undecodable bytes are logged and dropped,
text that is not JSON raises json.JSONDecodeError which escapes. -/
def on_websocket_message (fl : Flags) (fr : Fresh) (s : Session)
    (p : Payload) : HandlerResult :=
  match p with
  | .empty => (s, [], some .assertionError)
  | .notUtf8 => (s, [.logError, .logInfo], none)
  | .notJson => (s, [], some .jsonDecodeError)
  | .json msg => handle_decoded fl fr s msg

/-- One iteration's channel outcome in `relay_events`: `channel.get(timeout=1)`
returns an event mapping, raises `queue.Empty` on timeout, raises `EOFError`
when the manager channel is gone, or the thread receives KeyboardInterrupt. -/
inductive ChanOutcome where
  | item (ev : List (String × String))
  | timeoutEmpty
  | eof
  | interrupt
deriving DecidableEq, Repr

/-- Python dict assignment `d[k] = v` on an insertion-ordered association
list (keys unique, as in a Python dict): replace in place when the key
exists, else append. -/
def dictSet : List (String × String) → String → String → List (String × String)
  | [], k, v => [(k, v)]
  | p :: rest, k, v => if p.1 = k then (k, v) :: rest else p :: dictSet rest k v

/-- Line 163 of `relay_events`: `ev['push'] = 'inspect_traffic'`; the tagged
mapping is then serialized and queued to the client. -/
def pushTag (ev : List (String × String)) : List (String × String) :=
  dictSet ev "push" "inspect_traffic"

/-- How one run of the `relay_events` loop ended. -/
inductive RelayExit where
  | shutdownSeen
  | eofSeen
  | interruptSeen
deriving DecidableEq, Repr

/-- Embedding of the `relay_events` loop (lines 160-173) over a schedule:
`flag n` is the value `shutdown.is_set()` reads at the top of iteration `n`,
`chan n` the outcome of that iteration's `channel.get(timeout=1)`.  The
recursion is fuel-indexed: `none` means the loop had not exited within
`fuel` iterations; `some (e, msgs)` gives the exit cause and the tagged
event mappings queued to the client, in order. -/
def relayRun (flag : Nat → Bool) (chan : Nat → ChanOutcome) (i : Nat) :
    (fuel : Nat) → Option (RelayExit × List (List (String × String)))
  | 0 => none
  | fuel + 1 =>
    if flag i then some (.shutdownSeen, [])
    else
      match chan i with
      | .item ev =>
        (relayRun flag chan (i + 1) fuel).map
          (fun r => (r.1, pushTag ev :: r.2))
      | .timeoutEmpty => relayRun flag chan (i + 1) fuel
      | .eof => some (.eofSeen, [])
      | .interrupt => some (.interruptSeen, [])

/-- Concrete fresh-resource supply used in closed instances. -/
def fresh0 : Fresh :=
  { eid := 10, cid := 11, tid := 12, subId := "deadbeef" }

/-- Flags with the events feature enabled (`--enable-events`). -/
def flagsOn : Flags := { enable_events := true }

/-- Flags without the events feature. -/
def flagsOff : Flags := { enable_events := false }

/-- A concrete well-formed Inspecting session state. -/
def session_inspecting : Session :=
  { inspection_enabled := true
    relay_thread := some 3
    relay_shutdown := some 4
    relay_channel := some 5
    relay_sub_id := some "oldsub" }

/-- The all-or-nothing invariant claimed by the spec: `inspection_enabled`
is true exactly when the subscription id, channel and thread handle are all
present. -/
def sessionInv (s : Session) : Bool :=
  s.inspection_enabled ==
    (s.relay_sub_id.isSome && s.relay_channel.isSome && s.relay_thread.isSome)

/-- Well-formedness actually maintained by the code between handler calls:
the spec invariant plus the shutdown-event handle tracking the flag. -/
def sessionWf (s : Session) : Bool :=
  sessionInv s && (!s.inspection_enabled || s.relay_shutdown.isSome)

/-- The step order the spec claims for a successful `enable_inspection`
(stated from the spec's words, for comparison with the embedded code's
actual trace): allocate the fresh subscription identifier and fresh
channel; register the pair with the event bus; start the relay worker;
transition to Inspecting; reply. -/
def specEnableOrder (fr : Fresh) (i : String) : List Action :=
  [.newSubId fr.subId, .newChannel fr.cid, .subscribe fr.subId fr.cid,
   .startThread fr.tid, .setEnabled true,
   .queueReply [("id", i), ("response", "inspection_enabled")]]

/-! ### Helper lemmas -/

theorem dictGet_cons (p : String × String) (l : List (String × String))
    (k : String) :
    dictGet? (p :: l) k = if p.1 = k then some p.2 else dictGet? l k := by
  by_cases h : p.1 = k <;> simp [dictGet?, List.find?_cons, h]

theorem dictGet_dictSet_self (d : List (String × String)) (k v : String) :
    dictGet? (dictSet d k v) k = some v := by
  induction d with
  | nil => simp [dictSet, dictGet?]
  | cons p rest ih =>
    by_cases h : p.1 = k
    · simp [dictSet, h, dictGet?]
    · simp only [dictSet, if_neg h]
      rw [dictGet_cons, if_neg h, ih]

theorem dictGet_dictSet_other (d : List (String × String)) (k v k2 : String)
    (h : k2 ≠ k) :
    dictGet? (dictSet d k v) k2 = dictGet? d k2 := by
  induction d with
  | nil =>
    rw [dictSet, dictGet_cons, if_neg]
    exact fun hk => h hk.symm
  | cons p rest ih =>
    by_cases hp : p.1 = k
    · simp only [dictSet, if_pos hp]
      rw [dictGet_cons, dictGet_cons, if_neg (fun hk => h hk.symm), if_neg]
      rw [hp]
      exact fun hk => h hk.symm
    · simp only [dictSet, if_neg hp]
      rw [dictGet_cons, dictGet_cons, ih]

theorem shutdown_relay_idle (s : Session) (h : s.inspection_enabled = false) :
    shutdown_relay s = (s, [], none) := by
  simp [shutdown_relay, h]

theorem shutdown_relay_run (s : Session) (eid tid : Nat) (subId : String)
    (he : s.inspection_enabled = true) (hsh : s.relay_shutdown = some eid)
    (hth : s.relay_thread = some tid) (hsub : s.relay_sub_id = some subId) :
    shutdown_relay s =
      ({ s with relay_thread := none
                relay_shutdown := none
                relay_channel := none
                relay_sub_id := none },
       [.unsubscribe subId, .setShutdownSignal eid, .joinThread tid], none) := by
  simp [shutdown_relay, he, hsh, hth, hsub]

theorem shutdown_relay_flag (s : Session) :
    (shutdown_relay s).1.inspection_enabled = s.inspection_enabled := by
  unfold shutdown_relay
  repeat' split
  all_goals rfl

theorem handle_decoded_no_method (fl : Flags) (fr : Fresh) (s : Session)
    (msg : List (String × String)) (hm : dictGet? msg "method" = none) :
    handle_decoded fl fr s msg = (s, [], some (.keyError "method")) := by
  simp [handle_decoded, hm]

theorem handle_decoded_ping (fl : Flags) (fr : Fresh) (s : Session)
    (msg : List (String × String)) (hm : dictGet? msg "method" = some "ping") :
    handle_decoded fl fr s msg = ping_branch s msg := by
  simp [handle_decoded, hm]

theorem handle_decoded_enable (fl : Flags) (fr : Fresh) (s : Session)
    (msg : List (String × String))
    (hm : dictGet? msg "method" = some "enable_inspection") :
    handle_decoded fl fr s msg = enable_branch fl fr s msg := by
  simp [handle_decoded, hm]

theorem handle_decoded_disable (fl : Flags) (fr : Fresh) (s : Session)
    (msg : List (String × String))
    (hm : dictGet? msg "method" = some "disable_inspection") :
    handle_decoded fl fr s msg = disable_branch s msg := by
  simp [handle_decoded, hm]

theorem handle_decoded_other (fl : Flags) (fr : Fresh) (s : Session)
    (msg : List (String × String)) (m : String)
    (hm : dictGet? msg "method" = some m) (h1 : m ≠ "ping")
    (h2 : m ≠ "enable_inspection") (h3 : m ≠ "disable_inspection") :
    handle_decoded fl fr s msg = other_branch s msg := by
  simp [handle_decoded, hm, h1, h2, h3]

/-! ### Claim C1 -/

/-- C1 counterexample: from the initial state, `enable_inspection` with the
capability flag on, followed by the connection-close transition, leaves
`inspection_enabled = true` while all three relay handles are `None`
(`on_websocket_close` calls `shutdown_relay`, which never clears the flag),
so the claimed all-or-nothing iff invariant fails after that transition. -/
theorem C1_close_breaks_invariant :
    sessionInv (on_websocket_close
      (on_websocket_message flagsOn fresh0 session_init
        (.json [("id", "1"), ("method", "enable_inspection")])).1).1 = false := by
  decide

/-- C1 (amended): the all-or-nothing invariant — `inspection_enabled` is true
iff `relay_sub_id`, `relay_channel` and `relay_thread` are all present —
is preserved by every `on_websocket_message` transition (ping, enable,
disable, unknown method, and all malformed-payload paths), but not by the
connection-close transition from an Inspecting state, which clears the
handles while leaving the flag set. -/
theorem C1_invariant_message_transitions (fl : Flags) (fr : Fresh)
    (s : Session) (p : Payload) (h : sessionInv s = true) :
    sessionInv (on_websocket_message fl fr s p).1 = true := by
  cases p with
  | empty => exact h
  | notUtf8 => exact h
  | notJson => exact h
  | json msg =>
    show sessionInv (handle_decoded fl fr s msg).1 = true
    cases hm : dictGet? msg "method" with
    | none => rw [handle_decoded_no_method fl fr s msg hm]; exact h
    | some m =>
      by_cases h1 : m = "ping"
      · subst h1
        rw [handle_decoded_ping fl fr s msg hm]
        unfold ping_branch
        cases dictGet? msg "id" <;> exact h
      · by_cases h2 : m = "enable_inspection"
        · subst h2
          rw [handle_decoded_enable fl fr s msg hm]
          unfold enable_branch
          by_cases hfl : fl.enable_events
          · simp only [hfl, Bool.not_true, Bool.false_eq_true, if_false]
            cases dictGet? msg "id" <;> simp [sessionInv]
          · simp only [Bool.not_eq_true] at hfl
            simp only [hfl, Bool.not_false, if_true]
            cases dictGet? msg "id" <;> exact h
        · by_cases h3 : m = "disable_inspection"
          · subst h3
            rw [handle_decoded_disable fl fr s msg hm]
            unfold disable_branch
            by_cases he : s.inspection_enabled
            · cases hsubv : s.relay_sub_id with
              | none => exfalso; simp [sessionInv, he, hsubv] at h
              | some subv =>
                cases hthv : s.relay_thread with
                | none => exfalso; simp [sessionInv, he, hthv] at h
                | some thv =>
                  cases hsh : s.relay_shutdown with
                  | none =>
                    have hsr : shutdown_relay s = (s, [], some .assertionError) := by
                      simp [shutdown_relay, he, hsh]
                    rw [hsr]
                    exact h
                  | some eid =>
                    rw [shutdown_relay_run s eid thv subv he hsh hthv hsubv]
                    cases dictGet? msg "id" <;> simp [sessionInv]
            · simp only [Bool.not_eq_true] at he
              rw [shutdown_relay_idle s he]
              simp only
              cases dictGet? msg "id" <;>
                · simp only [sessionInv] at h ⊢
                  simpa [he] using h
          · rw [handle_decoded_other fl fr s msg m hm h1 h2 h3]
            unfold other_branch
            cases dictGet? msg "id" <;> exact h

/-- C1 witness: the invariant holds of the initial state and is preserved by
a concrete ping transition. -/
theorem C1_witness :
    sessionInv session_init = true ∧
    sessionInv (on_websocket_message flagsOn fresh0 session_init
      (.json [("id", "1"), ("method", "ping")])).1 = true :=
  ⟨by decide,
   C1_invariant_message_transitions flagsOn fresh0 session_init
     (.json [("id", "1"), ("method", "ping")]) (by decide)⟩

/-! ### Claim C2 -/

/-- C2 counterexample: three malformed payloads on which an exception
escapes `on_websocket_message`, contrary to the claim that every malformed
frame is logged and dropped with no escaping exception: an empty payload
(AssertionError from `assert frame.data`), a payload that is text but not
JSON (json.JSONDecodeError), and a JSON payload missing the `method` key
(KeyError) — the `except` clause catches only UnicodeDecodeError. -/
theorem C2_malformed_exceptions_escape :
    (on_websocket_message flagsOn fresh0 session_init .empty).2.2 =
        some .assertionError ∧
    (on_websocket_message flagsOn fresh0 session_init .notJson).2.2 =
        some .jsonDecodeError ∧
    (on_websocket_message flagsOn fresh0 session_init
        (.json [("id", "1")])).2.2 = some (.keyError "method") := by
  decide

theorem shutdown_relay_no_reply (s : Session) (r : List (String × String)) :
    Action.queueReply r ∉ (shutdown_relay s).2.1 := by
  unfold shutdown_relay
  repeat' split
  all_goals simp

theorem handle_decoded_no_reply_on_error (fl : Flags) (fr : Fresh)
    (s : Session) (msg : List (String × String)) :
    (handle_decoded fl fr s msg).2.2 = none ∨
    ∀ r, Action.queueReply r ∉ (handle_decoded fl fr s msg).2.1 := by
  cases hm : dictGet? msg "method" with
  | none =>
    rw [handle_decoded_no_method fl fr s msg hm]
    right; intro r; simp
  | some m =>
    by_cases h1 : m = "ping"
    · subst h1
      rw [handle_decoded_ping fl fr s msg hm]
      unfold ping_branch
      cases dictGet? msg "id"
      · right; intro r; simp
      · left; rfl
    · by_cases h2 : m = "enable_inspection"
      · subst h2
        rw [handle_decoded_enable fl fr s msg hm]
        unfold enable_branch
        by_cases hfl : fl.enable_events
        · simp only [hfl, Bool.not_true, Bool.false_eq_true, if_false]
          cases dictGet? msg "id"
          · right; intro r; simp
          · left; rfl
        · simp only [Bool.not_eq_true] at hfl
          simp only [hfl, Bool.not_false, if_true]
          cases dictGet? msg "id"
          · right; intro r; simp
          · left; rfl
      · by_cases h3 : m = "disable_inspection"
        · subst h3
          rw [handle_decoded_disable fl fr s msg hm]
          unfold disable_branch
          rcases hsr : shutdown_relay s with ⟨s1, tr, e⟩
          have htr : ∀ r2, Action.queueReply r2 ∉ tr := by
            intro r2
            have hnr := shutdown_relay_no_reply s r2
            rw [hsr] at hnr
            exact hnr
          cases e with
          | some e0 =>
            right
            intro r
            exact htr r
          | none =>
            cases hid : dictGet? msg "id" with
            | none =>
              right
              intro r hmem
              rcases List.mem_append.mp hmem with hin | hin
              · exact htr r hin
              · simp at hin
            | some i =>
              left
              rfl
        · rw [handle_decoded_other fl fr s msg m hm h1 h2 h3]
          unfold other_branch
          cases dictGet? msg "id"
          · right; intro r; simp
          · left; rfl

/-- C2 (amended): only the undecodable-bytes case (UnicodeDecodeError) is
logged and dropped with no reply, no state change and no escaping
exception.  The other malformed frames raise an exception that escapes the
handler: an empty payload raises AssertionError, non-JSON text raises
json.JSONDecodeError, a missing `method` key raises KeyError — each with no
reply and no state change — and a message missing `id` raises KeyError at
the point the reply is built: on the ping, unknown-method and
capability-denied enable branches the session is unchanged, but on the
capability-granted enable branch all five session fields have already been
overwritten (worker started, subscription registered) and on the
disable branch the teardown and flag clear have already run before the
KeyError.  In no malformed case is any reply sent. -/
theorem C2_malformed_amended (fl : Flags) (fr : Fresh) (s : Session) :
    on_websocket_message fl fr s .notUtf8 = (s, [.logError, .logInfo], none) ∧
    on_websocket_message fl fr s .empty = (s, [], some .assertionError) ∧
    on_websocket_message fl fr s .notJson = (s, [], some .jsonDecodeError) ∧
    (∀ msg, dictGet? msg "method" = none →
      on_websocket_message fl fr s (.json msg) =
        (s, [], some (.keyError "method"))) ∧
    (∀ msg, dictGet? msg "method" = some "ping" → dictGet? msg "id" = none →
      on_websocket_message fl fr s (.json msg) =
        (s, [], some (.keyError "id"))) ∧
    (∀ msg m, dictGet? msg "method" = some m → m ≠ "ping" →
      m ≠ "enable_inspection" → m ≠ "disable_inspection" →
      dictGet? msg "id" = none →
      on_websocket_message fl fr s (.json msg) =
        (s, [.logInfo, .logInfo], some (.keyError "id"))) ∧
    (∀ msg, dictGet? msg "method" = some "enable_inspection" →
      dictGet? msg "id" = none → fl.enable_events = false →
      on_websocket_message fl fr s (.json msg) =
        (s, [], some (.keyError "id"))) ∧
    (∀ msg, dictGet? msg "method" = some "enable_inspection" →
      dictGet? msg "id" = none → fl.enable_events = true →
      on_websocket_message fl fr s (.json msg) =
        ({ s with inspection_enabled := true
                  relay_shutdown := some fr.eid
                  relay_channel := some fr.cid
                  relay_thread := some fr.tid
                  relay_sub_id := some fr.subId },
         [.setEnabled true, .newShutdownEvent fr.eid, .newChannel fr.cid,
          .startThread fr.tid, .newSubId fr.subId,
          .subscribe fr.subId fr.cid],
         some (.keyError "id"))) ∧
    (∀ msg, dictGet? msg "method" = some "disable_inspection" →
      dictGet? msg "id" = none → s.inspection_enabled = false →
      on_websocket_message fl fr s (.json msg) =
        ({ s with inspection_enabled := false }, [.setEnabled false],
         some (.keyError "id"))) ∧
    (∀ msg eid tid subId, dictGet? msg "method" = some "disable_inspection" →
      dictGet? msg "id" = none → s.inspection_enabled = true →
      s.relay_shutdown = some eid → s.relay_thread = some tid →
      s.relay_sub_id = some subId →
      on_websocket_message fl fr s (.json msg) =
        ({ s with inspection_enabled := false
                  relay_thread := none
                  relay_shutdown := none
                  relay_channel := none
                  relay_sub_id := none },
         [.unsubscribe subId, .setShutdownSignal eid, .joinThread tid,
          .setEnabled false],
         some (.keyError "id"))) ∧
    (∀ p, (on_websocket_message fl fr s p).2.2 ≠ none →
      ∀ r, Action.queueReply r ∉ (on_websocket_message fl fr s p).2.1) := by
  refine ⟨rfl, rfl, rfl,
          fun msg hm => ?_,
          fun msg hm hid => ?_,
          fun msg m hm h1 h2 h3 hid => ?_,
          fun msg hm hid hfl => ?_,
          fun msg hm hid hfl => ?_,
          fun msg hm hid hidle => ?_,
          fun msg eid tid subId hm hid he hsh hth hsub => ?_,
          fun p herr r => ?_⟩
  · show handle_decoded fl fr s msg = _
    rw [handle_decoded_no_method fl fr s msg hm]
  · show handle_decoded fl fr s msg = _
    rw [handle_decoded_ping fl fr s msg hm]
    unfold ping_branch
    rw [hid]
  · show handle_decoded fl fr s msg = _
    rw [handle_decoded_other fl fr s msg m hm h1 h2 h3]
    unfold other_branch
    rw [hid]
  · show handle_decoded fl fr s msg = _
    rw [handle_decoded_enable fl fr s msg hm]
    unfold enable_branch
    simp [hfl, hid]
  · show handle_decoded fl fr s msg = _
    rw [handle_decoded_enable fl fr s msg hm]
    unfold enable_branch
    simp [hfl, hid]
  · show handle_decoded fl fr s msg = _
    rw [handle_decoded_disable fl fr s msg hm]
    unfold disable_branch
    rw [shutdown_relay_idle s hidle]
    simp [hid]
  · show handle_decoded fl fr s msg = _
    rw [handle_decoded_disable fl fr s msg hm]
    unfold disable_branch
    rw [shutdown_relay_run s eid tid subId he hsh hth hsub]
    simp [hid]
  · cases p with
    | empty => simp [on_websocket_message]
    | notUtf8 => exact absurd rfl herr
    | notJson => simp [on_websocket_message]
    | json msg =>
      rcases handle_decoded_no_reply_on_error fl fr s msg with hnone | hnor
      · exact absurd hnone herr
      · exact hnor r

/-- C2 witness: the amended theorem applied at concrete inputs: the
undecodable-bytes payload (dropped), and missing-id messages on the
capability-granted enable path (fields mutated before the KeyError) and on
the disable-from-Inspecting path (teardown run before the KeyError). -/
theorem C2_witness :
    on_websocket_message flagsOn fresh0 session_init .notUtf8 =
        (session_init, [.logError, .logInfo], none) ∧
    on_websocket_message flagsOn fresh0 session_init
        (.json [("method", "enable_inspection")]) =
      ({ session_init with
          inspection_enabled := true
          relay_shutdown := some 10
          relay_channel := some 11
          relay_thread := some 12
          relay_sub_id := some "deadbeef" },
       [.setEnabled true, .newShutdownEvent 10, .newChannel 11,
        .startThread 12, .newSubId "deadbeef", .subscribe "deadbeef" 11],
       some (.keyError "id")) ∧
    on_websocket_message flagsOn fresh0 session_inspecting
        (.json [("method", "disable_inspection")]) =
      ({ session_inspecting with
          inspection_enabled := false
          relay_thread := none
          relay_shutdown := none
          relay_channel := none
          relay_sub_id := none },
       [.unsubscribe "oldsub", .setShutdownSignal 4, .joinThread 3,
        .setEnabled false],
       some (.keyError "id")) :=
  ⟨(C2_malformed_amended flagsOn fresh0 session_init).1,
   (C2_malformed_amended flagsOn fresh0 session_init).2.2.2.2.2.2.2.1
     [("method", "enable_inspection")] (by decide) (by decide) rfl,
   (C2_malformed_amended flagsOn fresh0 session_inspecting).2.2.2.2.2.2.2.2.2.1
     [("method", "disable_inspection")] 4 3 "oldsub"
     (by decide) (by decide) rfl rfl rfl rfl⟩

/-! ### Claim C3 -/

/-- C3 counterexample: from a well-formed Inspecting state, neither
`shutdown_relay` nor the connection-close path clears the
`inspection_enabled` flag, contrary to the claim that teardown clears all
four Session fields (enabled flag included) on both paths. -/
theorem C3_close_keeps_flag :
    (on_websocket_close session_inspecting).1.inspection_enabled = true ∧
    (shutdown_relay session_inspecting).1.inspection_enabled = true := by
  decide

/-- C3 (amended): when the session is not Inspecting, `shutdown_relay`
returns immediately; otherwise it performs, in this order, unsubscribe of
the subscription id, setting the worker stop signal, and the blocking join,
then clears the four relay-handle fields (`relay_thread`, `relay_shutdown`,
`relay_channel`, `relay_sub_id`) — but it leaves `inspection_enabled` at
its prior value; the connection-close path is exactly a log line followed
by `shutdown_relay`. -/
theorem C3_teardown_order_amended (s : Session) (eid tid : Nat)
    (subId : String) (he : s.inspection_enabled = true)
    (hsh : s.relay_shutdown = some eid) (hth : s.relay_thread = some tid)
    (hsub : s.relay_sub_id = some subId) :
    shutdown_relay s =
      ({ s with relay_thread := none
                relay_shutdown := none
                relay_channel := none
                relay_sub_id := none },
       [.unsubscribe subId, .setShutdownSignal eid, .joinThread tid],
       none) ∧
    (shutdown_relay s).1.inspection_enabled = true ∧
    (∀ s2 : Session, s2.inspection_enabled = false →
      shutdown_relay s2 = (s2, [], none)) ∧
    on_websocket_close s =
      ((shutdown_relay s).1, .logInfo :: (shutdown_relay s).2.1,
       (shutdown_relay s).2.2) := by
  refine ⟨shutdown_relay_run s eid tid subId he hsh hth hsub, ?_,
          fun s2 h2 => shutdown_relay_idle s2 h2, ?_⟩
  · rw [shutdown_relay_run s eid tid subId he hsh hth hsub]
    exact he
  · rfl

/-- C3 witness: the amended teardown theorem applied at the concrete
Inspecting state. -/
theorem C3_witness :
    shutdown_relay session_inspecting =
      ({ session_inspecting with
          relay_thread := none
          relay_shutdown := none
          relay_channel := none
          relay_sub_id := none },
       [.unsubscribe "oldsub", .setShutdownSignal 4, .joinThread 3],
       none) :=
  (C3_teardown_order_amended session_inspecting 4 3 "oldsub"
    rfl rfl rfl rfl).1

/-! ### Claim C4 -/

/-- C4: `enable_inspection` with the capability flag false replies
`{id, response: "not enabled"}`, leaves every session field unchanged, and
performs no other effect — in particular no worker start and no bus
subscription (the trace is exactly the one queued reply). -/
theorem C4_capability_denied (fl : Flags) (fr : Fresh) (s : Session)
    (msg : List (String × String)) (i : String)
    (hfl : fl.enable_events = false)
    (hm : dictGet? msg "method" = some "enable_inspection")
    (hid : dictGet? msg "id" = some i) :
    on_websocket_message fl fr s (.json msg) =
      (s, [.queueReply [("id", i), ("response", "not enabled")]], none) := by
  show handle_decoded fl fr s msg = _
  rw [handle_decoded_enable fl fr s msg hm]
  unfold enable_branch
  simp [hfl, hid]

/-- C4 witness: the theorem applied at the initial state with the events
feature off. -/
theorem C4_witness :
    on_websocket_message flagsOff fresh0 session_init
        (.json [("id", "1"), ("method", "enable_inspection")]) =
      (session_init,
       [.queueReply [("id", "1"), ("response", "not enabled")]], none) :=
  C4_capability_denied flagsOff fresh0 session_init
    [("id", "1"), ("method", "enable_inspection")] "1"
    rfl (by decide) (by decide)

/-! ### Claim C5 -/

/-- C5 counterexample: an event that already carries a `push` key has that
key's value overwritten by `ev['push'] = 'inspect_traffic'`, so the claim
that every key of the original event keeps its value fails on the event
`{"push": "x"}`. -/
theorem C5_push_key_overwritten :
    dictGet? (pushTag [("push", "x")]) "push" = some "inspect_traffic" ∧
    dictGet? [("push", "x")] "push" = some "x" := by
  decide

/-- C5 (amended): for every event the relay worker receives, the message it
queues to the client is the event tagged with `push = "inspect_traffic"`;
every key other than `push` keeps its original value, while any
pre-existing `push` field is overwritten. -/
theorem C5_push_tag_amended (flag : Nat → Bool) (chan : Nat → ChanOutcome)
    (i fuel : Nat) (ev : List (String × String)) (k : String)
    (hflag : flag i = false) (hchan : chan i = .item ev) (hk : k ≠ "push") :
    relayRun flag chan i (fuel + 1) =
      (relayRun flag chan (i + 1) fuel).map
        (fun r => (r.1, pushTag ev :: r.2)) ∧
    dictGet? (pushTag ev) "push" = some "inspect_traffic" ∧
    dictGet? (pushTag ev) k = dictGet? ev k := by
  refine ⟨?_, dictGet_dictSet_self ev "push" "inspect_traffic",
          dictGet_dictSet_other ev "push" "inspect_traffic" k hk⟩
  simp [relayRun, hflag, hchan]

/-- C5 witness: the amended theorem applied to a one-item schedule and the
concrete event `{"a": "b"}`. -/
theorem C5_witness :
    relayRun (fun _ => false) (fun _ => ChanOutcome.item [("a", "b")]) 0 1 =
      (relayRun (fun _ => false)
        (fun _ => ChanOutcome.item [("a", "b")]) 1 0).map
        (fun r => (r.1, pushTag [("a", "b")] :: r.2)) ∧
    dictGet? (pushTag [("a", "b")]) "push" = some "inspect_traffic" ∧
    dictGet? (pushTag [("a", "b")]) "a" = dictGet? [("a", "b")] "a" :=
  C5_push_tag_amended (fun _ => false)
    (fun _ => ChanOutcome.item [("a", "b")]) 0 0 [("a", "b")] "a"
    rfl rfl (by decide)

/-! ### Claim C6 -/

/-- C6: `disable_inspection` from any well-formed state leaves the session
with `inspection_enabled = false`, raises nothing, and the
`{id, response: "inspection_disabled"}` reply is the last effect; when the
session is already Idle the whole transition only replies (the session
state is returned unchanged and no teardown effect occurs). -/
theorem C6_disable_idempotent (fl : Flags) (fr : Fresh) (s : Session)
    (msg : List (String × String)) (i : String)
    (hwf : sessionWf s = true)
    (hm : dictGet? msg "method" = some "disable_inspection")
    (hid : dictGet? msg "id" = some i) :
    (on_websocket_message fl fr s (.json msg)).1.inspection_enabled = false ∧
    (on_websocket_message fl fr s (.json msg)).2.2 = none ∧
    (on_websocket_message fl fr s (.json msg)).2.1.getLast? =
      some (.queueReply [("id", i), ("response", "inspection_disabled")]) ∧
    (s.inspection_enabled = false →
      on_websocket_message fl fr s (.json msg) =
        (s, [.setEnabled false,
             .queueReply [("id", i), ("response", "inspection_disabled")]],
         none)) := by
  obtain ⟨e, t, sh, c, sub⟩ := s
  have hmain : on_websocket_message fl fr ⟨e, t, sh, c, sub⟩ (.json msg) =
      disable_branch ⟨e, t, sh, c, sub⟩ msg :=
    handle_decoded_disable fl fr _ msg hm
  rw [hmain]
  cases e with
  | false =>
    refine ⟨?_, ?_, ?_, fun _ => ?_⟩ <;>
      simp [disable_branch, shutdown_relay, hid]
  | true =>
    cases sub with
    | none => exfalso; simp [sessionWf, sessionInv] at hwf
    | some subv =>
      cases t with
      | none => exfalso; simp [sessionWf, sessionInv] at hwf
      | some thv =>
        cases sh with
        | none => exfalso; simp [sessionWf, sessionInv] at hwf
        | some eid =>
          refine ⟨?_, ?_, ?_, fun hf => by simp at hf⟩ <;>
            simp [disable_branch, shutdown_relay, hid]

/-- C6 witness: the theorem applied at the already-Idle initial state,
including the idempotent no-op conjunct. -/
theorem C6_witness :
    (on_websocket_message flagsOn fresh0 session_init
        (.json [("id", "1"),
                ("method", "disable_inspection")])).1.inspection_enabled =
      false ∧
    (on_websocket_message flagsOn fresh0 session_init
        (.json [("id", "1"), ("method", "disable_inspection")])).2.2 = none ∧
    (on_websocket_message flagsOn fresh0 session_init
        (.json [("id", "1"),
                ("method", "disable_inspection")])).2.1.getLast? =
      some (.queueReply [("id", "1"), ("response", "inspection_disabled")]) ∧
    (session_init.inspection_enabled = false →
      on_websocket_message flagsOn fresh0 session_init
          (.json [("id", "1"), ("method", "disable_inspection")]) =
        (session_init,
         [.setEnabled false,
          .queueReply [("id", "1"), ("response", "inspection_disabled")]],
         none)) :=
  C6_disable_idempotent flagsOn fresh0 session_init
    [("id", "1"), ("method", "disable_inspection")] "1"
    (by decide) (by decide) (by decide)

/-! ### Claim C7 -/

/-- C7 counterexample: on a concrete successful `enable_inspection`, the
code's actual effect order is: set the Inspecting flag first, allocate the
stop signal and channel, start the relay worker, only then allocate the
subscription id and register it with the bus, and finally reply — which
differs from the claimed order (allocate id and channel, register, start
worker, transition, reply). -/
theorem C7_enable_order_differs :
    (on_websocket_message flagsOn fresh0 session_init
        (.json [("id", "1"), ("method", "enable_inspection")])).2.1 =
      [.setEnabled true, .newShutdownEvent 10, .newChannel 11,
       .startThread 12, .newSubId "deadbeef", .subscribe "deadbeef" 11,
       .queueReply [("id", "1"), ("response", "inspection_enabled")]] ∧
    (on_websocket_message flagsOn fresh0 session_init
        (.json [("id", "1"), ("method", "enable_inspection")])).2.1 ≠
      specEnableOrder fresh0 "1" := by
  decide

/-- C7 (amended): a successful `enable_inspection` performs, in this order:
set `inspection_enabled`, create the stop signal and the fresh channel,
start the relay worker, allocate the fresh subscription id, register it
with the event bus, and finally reply `{id, response:
"inspection_enabled"}`; the final state holds exactly the fresh handles. -/
theorem C7_enable_order_amended (fl : Flags) (fr : Fresh) (s : Session)
    (msg : List (String × String)) (i : String)
    (hfl : fl.enable_events = true)
    (hm : dictGet? msg "method" = some "enable_inspection")
    (hid : dictGet? msg "id" = some i) :
    on_websocket_message fl fr s (.json msg) =
      ({ s with inspection_enabled := true
                relay_shutdown := some fr.eid
                relay_channel := some fr.cid
                relay_thread := some fr.tid
                relay_sub_id := some fr.subId },
       [.setEnabled true, .newShutdownEvent fr.eid, .newChannel fr.cid,
        .startThread fr.tid, .newSubId fr.subId, .subscribe fr.subId fr.cid,
        .queueReply [("id", i), ("response", "inspection_enabled")]],
       none) := by
  show handle_decoded fl fr s msg = _
  rw [handle_decoded_enable fl fr s msg hm]
  unfold enable_branch
  simp [hfl, hid]

/-- C7 witness: the amended theorem applied at the initial state with the
concrete fresh supply. -/
theorem C7_witness :
    on_websocket_message flagsOn fresh0 session_init
        (.json [("id", "1"), ("method", "enable_inspection")]) =
      ({ session_init with
          inspection_enabled := true
          relay_shutdown := some 10
          relay_channel := some 11
          relay_thread := some 12
          relay_sub_id := some "deadbeef" },
       [.setEnabled true, .newShutdownEvent 10, .newChannel 11,
        .startThread 12, .newSubId "deadbeef", .subscribe "deadbeef" 11,
        .queueReply [("id", "1"), ("response", "inspection_enabled")]],
       none) :=
  C7_enable_order_amended flagsOn fresh0 session_init
    [("id", "1"), ("method", "enable_inspection")] "1"
    rfl (by decide) (by decide)

/-! ### Claim C8 -/

/-- C8: `enable_inspection` processed while already Inspecting (capability
on) unconditionally re-enables: the final state holds exactly the fresh
handles, overwriting all prior ones, and the trace contains no unsubscribe
of the prior subscription id, no setting of the prior stop signal and no
join of the prior worker — both are leaked. -/
theorem C8_reenable_leaks (fl : Flags) (fr : Fresh) (s : Session)
    (msg : List (String × String)) (i : String) (oldSub : String)
    (oldTid oldEid : Nat)
    (hfl : fl.enable_events = true)
    (he : s.inspection_enabled = true)
    (hsub : s.relay_sub_id = some oldSub)
    (hth : s.relay_thread = some oldTid)
    (hsh : s.relay_shutdown = some oldEid)
    (hm : dictGet? msg "method" = some "enable_inspection")
    (hid : dictGet? msg "id" = some i) :
    (on_websocket_message fl fr s (.json msg)).1 =
      { s with inspection_enabled := true
               relay_shutdown := some fr.eid
               relay_channel := some fr.cid
               relay_thread := some fr.tid
               relay_sub_id := some fr.subId } ∧
    (on_websocket_message fl fr s (.json msg)).2.2 = none ∧
    Action.unsubscribe oldSub ∉
      (on_websocket_message fl fr s (.json msg)).2.1 ∧
    Action.setShutdownSignal oldEid ∉
      (on_websocket_message fl fr s (.json msg)).2.1 ∧
    Action.joinThread oldTid ∉
      (on_websocket_message fl fr s (.json msg)).2.1 := by
  have hmain : on_websocket_message fl fr s (.json msg) =
      enable_branch fl fr s msg :=
    handle_decoded_enable fl fr s msg hm
  rw [hmain]
  unfold enable_branch
  simp [hfl, hid]

/-- C8 witness: the theorem applied at the concrete Inspecting state with a
fresh supply distinct from the old handles. -/
theorem C8_witness :
    (on_websocket_message flagsOn fresh0 session_inspecting
        (.json [("id", "1"), ("method", "enable_inspection")])).1 =
      { session_inspecting with
          inspection_enabled := true
          relay_shutdown := some 10
          relay_channel := some 11
          relay_thread := some 12
          relay_sub_id := some "deadbeef" } ∧
    (on_websocket_message flagsOn fresh0 session_inspecting
        (.json [("id", "1"), ("method", "enable_inspection")])).2.2 = none ∧
    Action.unsubscribe "oldsub" ∉
      (on_websocket_message flagsOn fresh0 session_inspecting
        (.json [("id", "1"), ("method", "enable_inspection")])).2.1 ∧
    Action.setShutdownSignal 4 ∉
      (on_websocket_message flagsOn fresh0 session_inspecting
        (.json [("id", "1"), ("method", "enable_inspection")])).2.1 ∧
    Action.joinThread 3 ∉
      (on_websocket_message flagsOn fresh0 session_inspecting
        (.json [("id", "1"), ("method", "enable_inspection")])).2.1 :=
  C8_reenable_leaks flagsOn fresh0 session_inspecting
    [("id", "1"), ("method", "enable_inspection")] "1" "oldsub" 3 4
    rfl rfl rfl rfl rfl (by decide) (by decide)

/-! ### Claim C9 -/

/-- C9: the relay worker loop re-checks the stop flag once per iteration
and exits when it is set, exits on a closed channel (EOFError) and on
interruption (KeyboardInterrupt); under the precondition that the stop flag
is eventually set forever, or the channel schedule reaches EOF or an
interrupt, the loop terminates — concretely, fuel `N + 1 - i` iterations
suffice from iteration `i`. -/
theorem C9_relay_terminates (flag : Nat → Bool) (chan : Nat → ChanOutcome)
    (i N : Nat) (hiN : i ≤ N)
    (hend : (∀ n, N ≤ n → flag n = true) ∨ chan N = .eof ∨
      chan N = .interrupt) :
    (relayRun flag chan i (N + 1 - i)).isSome = true := by
  have key : ∀ d j, j ≤ N → N - j = d →
      (relayRun flag chan j (d + 1)).isSome = true := by
    intro d
    induction d with
    | zero =>
      intro j hj hd
      have hjN : j = N := by omega
      subst hjN
      by_cases hf : flag j
      · simp [relayRun, hf]
      · rcases hend with hflag | heof | hint
        · exact absurd (hflag j (Nat.le_refl j)) hf
        · simp [relayRun, hf, heof]
        · simp [relayRun, hf, hint]
    | succ d ih =>
      intro j hj hd
      by_cases hf : flag j
      · simp [relayRun, hf]
      · have hnext := ih (j + 1) (by omega) (by omega)
        cases hc : chan j with
        | item ev =>
          have hstep : relayRun flag chan j (d + 1 + 1) =
              (relayRun flag chan (j + 1) (d + 1)).map
                (fun r => (r.1, pushTag ev :: r.2)) := by
            simp [relayRun, hf, hc]
          rw [hstep]
          cases hro : relayRun flag chan (j + 1) (d + 1) with
          | none => rw [hro] at hnext; simp at hnext
          | some r => simp
        | timeoutEmpty =>
          have hstep : relayRun flag chan j (d + 1 + 1) =
              relayRun flag chan (j + 1) (d + 1) := by
            simp [relayRun, hf, hc]
          rw [hstep]
          exact hnext
        | eof => simp [relayRun, hf, hc]
        | interrupt => simp [relayRun, hf, hc]
  have hfuel : N + 1 - i = (N - i) + 1 := by omega
  rw [hfuel]
  exact key (N - i) i hiN rfl

/-- C9 witness: a schedule that only times out, with the stop flag set from
iteration 2 onwards; three iterations of fuel suffice from iteration 0. -/
theorem C9_witness :
    (relayRun (fun n => decide (2 ≤ n))
      (fun _ => ChanOutcome.timeoutEmpty) 0 3).isSome = true :=
  C9_relay_terminates (fun n => decide (2 ≤ n))
    (fun _ => ChanOutcome.timeoutEmpty) 0 2 (by omega)
    (Or.inl (fun n hn => decide_eq_true hn))

/-! ### Claim C10 -/

theorem ping_branch_state (s : Session) (msg : List (String × String)) :
    (ping_branch s msg).1 = s := by
  unfold ping_branch
  cases dictGet? msg "id" <;> rfl

theorem other_branch_state (s : Session) (msg : List (String × String)) :
    (other_branch s msg).1 = s := by
  unfold other_branch
  cases dictGet? msg "id" <;> rfl

theorem enable_branch_flag (fl : Flags) (fr : Fresh) (s : Session)
    (msg : List (String × String)) :
    (enable_branch fl fr s msg).1.inspection_enabled = true ∨
    (enable_branch fl fr s msg).1 = s := by
  unfold enable_branch
  by_cases hfl : fl.enable_events
  · left
    simp only [hfl, Bool.not_true, Bool.false_eq_true, if_false]
    cases dictGet? msg "id" <;> rfl
  · right
    simp only [Bool.not_eq_true] at hfl
    simp only [hfl, Bool.not_false, if_true]
    cases dictGet? msg "id" <;> rfl

/-- C10: `shutdown_relay` never modifies `inspection_enabled` — the flag
after any call (including through `on_websocket_close`) equals its value
before — and the only message-handler branch that can take the flag from
true to false is `disable_inspection`. -/
theorem C10_shutdown_preserves_flag (s : Session) (fl : Flags) (fr : Fresh)
    (msg : List (String × String)) :
    (shutdown_relay s).1.inspection_enabled = s.inspection_enabled ∧
    (on_websocket_close s).1.inspection_enabled = s.inspection_enabled ∧
    (s.inspection_enabled = true →
      (on_websocket_message fl fr s (.json msg)).1.inspection_enabled =
        false →
      dictGet? msg "method" = some "disable_inspection") := by
  refine ⟨shutdown_relay_flag s, shutdown_relay_flag s, ?_⟩
  intro he hflag
  have hmsg : (on_websocket_message fl fr s (.json msg)) =
      handle_decoded fl fr s msg := rfl
  rw [hmsg] at hflag
  cases hm : dictGet? msg "method" with
  | none =>
    rw [handle_decoded_no_method fl fr s msg hm] at hflag
    rw [he] at hflag
    cases hflag
  | some m =>
    by_cases h1 : m = "ping"
    · exfalso
      subst h1
      rw [handle_decoded_ping fl fr s msg hm, ping_branch_state s msg,
        he] at hflag
      cases hflag
    · by_cases h2 : m = "enable_inspection"
      · exfalso
        subst h2
        rw [handle_decoded_enable fl fr s msg hm] at hflag
        rcases enable_branch_flag fl fr s msg with hon | hsame
        · rw [hon] at hflag; cases hflag
        · rw [hsame, he] at hflag; cases hflag
      · by_cases h3 : m = "disable_inspection"
        · rw [h3]
        · exfalso
          rw [handle_decoded_other fl fr s msg m hm h1 h2 h3,
            other_branch_state s msg, he] at hflag
          cases hflag

/-- C10 witness: the theorem applied at the concrete Inspecting state and a
concrete disable message, discharging both hypotheses of the last
conjunct. -/
theorem C10_witness :
    (shutdown_relay session_inspecting).1.inspection_enabled =
      session_inspecting.inspection_enabled ∧
    dictGet? [("id", "1"), ("method", "disable_inspection")] "method" =
      some "disable_inspection" :=
  ⟨(C10_shutdown_preserves_flag session_inspecting flagsOn fresh0
      [("id", "1"), ("method", "disable_inspection")]).1,
   (C10_shutdown_preserves_flag session_inspecting flagsOn fresh0
      [("id", "1"), ("method", "disable_inspection")]).2.2
     (by decide) (by decide)⟩

end Dashboard
